import Mathlib

/-!
Shallow embedding of the geoslice core (src/python/geoslice/core.py and
src/python/geoslice/drone.py): a bounds-safe windowed raster accessor, a
geodetic-to-pixel coordinate transform, flight-path generators and the
flight simulator, together with theorems settling the specification claims.

Python floats are modelled as real numbers, Python ints as integers
(arbitrary precision in Python, so no overflow wrap), lists as Lean lists.
-/

namespace GeoSlice

/-- Geospatial metadata for a raster dataset (class GeoMetadata, core.py
lines 24-32): dtype name, band count, height, width, 6-element affine
transform, optional CRS identifier. -/
structure GeoMetadata where
  dtype : String
  count : ℕ
  height : ℕ
  width : ℕ
  transform : ℝ × ℝ × ℝ × ℝ × ℝ × ℝ
  crs : Option String

/-- Item size in bytes of a numpy dtype name, the closed set of element
types np.dtype resolves for this library (np.dtype(name).itemsize); an
unknown name makes np.dtype raise, modelled as none. -/
def npItemsize : String → Option ℕ
  | "uint8" => some 1
  | "int8" => some 1
  | "uint16" => some 2
  | "int16" => some 2
  | "uint32" => some 4
  | "int32" => some 4
  | "uint64" => some 8
  | "int64" => some 8
  | "float32" => some 4
  | "float64" => some 8
  | _ => none

/-- Errors that FastGeoMap construction can raise (core.py lines 49-78):
np.dtype raises TypeError on an unknown dtype name, and np.memmap with
mode r raises ValueError when the file holds fewer bytes than the
requested shape needs. -/
inductive InitError where
  | dtypeNotUnderstood
  | mmapTooSmall
deriving DecidableEq

/-- Construction-time validation of FastGeoMap.__init__ (core.py lines
49-78) for a metadata record and a binary file of binLen bytes. The
missing-file checks are filesystem behaviour and are outside the model.
The size check is the one np.memmap (mode r, explicit shape) performs:
it raises if and only if the file is SHORTER than
count*height*width*itemsize bytes; a longer file is accepted and the
leading prefix is mapped. On success the mapped shape is
(count, height, width). -/
def fastGeoMapInitCheck (meta : GeoMetadata) (binLen : ℕ) :
    Except InitError (ℕ × ℕ × ℕ) :=
  match npItemsize meta.dtype with
  | none => Except.error InitError.dtypeNotUnderstood
  | some isize =>
      if binLen < meta.count * meta.height * meta.width * isize then
        Except.error InitError.mmapTooSmall
      else
        Except.ok (meta.count, meta.height, meta.width)

/-- Value-level FastGeoMap (core.py lines 35-132): metadata plus the
backing raster contents, read as a function from (band, row, col) to the
element there.  Ownership and aliasing of numpy buffers are modelled
separately at the heap level below. -/
structure FastGeoMap (α : Type) where
  meta : GeoMetadata
  data : ℕ → ℕ → ℕ → α

/-- A numpy ndarray result at the value level: its 3-D shape
(bands, rows, cols) and its elements. -/
structure NDArray (α : Type) where
  bands : ℕ
  rows : ℕ
  cols : ℕ
  elem : ℕ → ℕ → ℕ → α

/-- The numpy shape tuple of an NDArray. -/
def NDArray.shape (a : NDArray α) : ℕ × ℕ × ℕ := (a.bands, a.rows, a.cols)

/-- FastGeoMap.is_valid_window (core.py lines 96-101): strict bounds
predicate, no clamping, no state change. -/
def FastGeoMap.is_valid_window (m : FastGeoMap α) (x y width height : ℤ) : Bool :=
  decide (0 ≤ x) && decide (0 ≤ y) &&
  decide (x + width ≤ (m.meta.width : ℤ)) &&
  decide (y + height ≤ (m.meta.height : ℤ)) &&
  decide (0 < width) && decide (0 < height)

/-- FastGeoMap.get_window (core.py lines 103-128): clamp x and y to 0,
clamp width and height against the raster bounds, return the empty
(count, 0, 0) array when the clamped extent is degenerate, otherwise the
view self._data[:, y:y+height, x:x+width]. -/
def FastGeoMap.get_window (m : FastGeoMap α) [Inhabited α]
    (x y width height : ℤ) : NDArray α :=
  let x := max 0 x
  let y := max 0 y
  let width := min width ((m.meta.width : ℤ) - x)
  let height := min height ((m.meta.height : ℤ) - y)
  if width ≤ 0 ∨ height ≤ 0 then
    ⟨m.meta.count, 0, 0, fun _ _ _ => default⟩
  else
    ⟨m.meta.count, height.toNat, width.toNat,
      fun b i j => m.data b (y.toNat + i) (x.toNat + j)⟩

/-- FastGeoMap.get_window_copy (core.py lines 130-132): np.array of the
window view; at the value level the contents and shape coincide with
get_window (the copy semantics live in the heap model below). -/
def FastGeoMap.get_window_copy (m : FastGeoMap α) [Inhabited α]
    (x y width height : ℤ) : NDArray α :=
  m.get_window x y width height

/-! Allocation-level model of numpy buffer ownership, for the view/copy
distinction: a heap of flat buffers addressed by id, where a numpy view
references an existing buffer through an index map while np.array
allocates a fresh buffer and copies the referenced elements into it. -/

/-- A heap of flat numpy buffers: contents by buffer id and flat
position, plus the next free id. -/
structure Heap (α : Type) where
  buf : ℕ → ℕ → α
  nextId : ℕ

/-- A reference to a (possibly strided) 3-D numpy array living in a
heap: the id of its backing buffer, its shape, and the map from array
coordinates to flat positions in that buffer. -/
structure ArrRef where
  bufId : ℕ
  bands : ℕ
  rows : ℕ
  cols : ℕ
  index : ℕ → ℕ → ℕ → ℕ

/-- Read element (b, i, j) of an array reference out of the heap. -/
def Heap.read (h : Heap α) (a : ArrRef) (b i j : ℕ) : α :=
  h.buf a.bufId (a.index b i j)

/-- Write value v at flat position pos of buffer id (a mutation of that
buffer only). -/
def Heap.write (h : Heap α) (id pos : ℕ) (v : α) : Heap α :=
  ⟨fun id2 p => if id2 = id ∧ p = pos then v else h.buf id2 p, h.nextId⟩

/-- Band-sequential (BSQ) flat index of element (b, i, j) in a raster of
the given metadata: all of band 0, then band 1, row-major within each
band. -/
def bsqIndex (meta : GeoMetadata) (b i j : ℕ) : ℕ :=
  (b * meta.height + i) * meta.width + j

/-- A FastGeoMap at the allocation level: metadata plus the id of the
memory-mapped backing buffer (BSQ layout) in the heap. -/
structure StoreRef where
  meta : GeoMetadata
  bufId : ℕ

/-- get_window at the allocation level (core.py lines 103-128): the
degenerate branch allocates a fresh zero-size array (np.empty); the main
branch returns a VIEW into the store's backing buffer, with the index
map of the slice self._data[:, y:y+height, x:x+width]. -/
def getWindowRef (s : StoreRef) (hp : Heap α) (x y width height : ℤ) :
    ArrRef × Heap α :=
  let x := max 0 x
  let y := max 0 y
  let width := min width ((s.meta.width : ℤ) - x)
  let height := min height ((s.meta.height : ℤ) - y)
  if width ≤ 0 ∨ height ≤ 0 then
    (⟨hp.nextId, s.meta.count, 0, 0, fun _ _ _ => 0⟩,
      ⟨hp.buf, hp.nextId + 1⟩)
  else
    (⟨s.bufId, s.meta.count, height.toNat, width.toNat,
        fun b i j => bsqIndex s.meta b (y.toNat + i) (x.toNat + j)⟩, hp)

/-- get_window_copy at the allocation level (core.py lines 130-132):
np.array(view) allocates a fresh contiguous buffer and copies every
element of the view into it. -/
def getWindowCopyRef (s : StoreRef) (hp : Heap α) (x y width height : ℤ) :
    ArrRef × Heap α :=
  let vh := getWindowRef s hp x y width height
  let v := vh.1
  let hp1 := vh.2
  let newId := hp1.nextId
  let arr : ArrRef :=
    ⟨newId, v.bands, v.rows, v.cols, fun b i j => (b * v.rows + i) * v.cols + j⟩
  let copied : ℕ → α := fun p =>
    hp1.buf v.bufId (v.index (p / (v.rows * v.cols)) (p % (v.rows * v.cols) / v.cols) (p % v.cols))
  (arr, ⟨fun id p => if id = newId then copied p else hp1.buf id p, newId + 1⟩)

/-! Coordinate transform (class GeoTransform, core.py lines 135-236).
Python doubles are modelled as real numbers. -/

/-- WGS84 semi-major axis (core.py line 144). -/
def wgs84A : ℝ := 6378137.0

/-- WGS84 flattening (core.py line 145). -/
noncomputable def wgs84F : ℝ := 1 / 298.257223563

/-- UTM scale factor at the central meridian (core.py line 146). -/
def utmK0 : ℝ := 0.9996

/-- math.radians: degrees to radians. -/
noncomputable def radians (d : ℝ) : ℝ := d * Real.pi / 180

/-- math.degrees: radians to degrees. -/
noncomputable def degrees (r : ℝ) : ℝ := r * 180 / Real.pi

/-- Python int() applied to a float: truncation toward zero. -/
noncomputable def truncInt (r : ℝ) : ℤ := if 0 ≤ r then ⌊r⌋ else ⌈r⌉

/-- math.atan2 y x, with the branch cut conventions of Complex.arg. -/
noncomputable def atan2 (y x : ℝ) : ℝ := Complex.arg ⟨x, y⟩

/-- State of a GeoTransform, derived once at construction. -/
structure GeoTransform where
  pixel_size_x : ℝ
  pixel_size_y : ℝ
  origin_x : ℝ
  origin_y : ℝ
  utm_zone : ℤ
  central_meridian : ℝ

/-- GeoTransform.__init__ (core.py lines 148-161): from the six-element
affine transform keep transform[0] as pixel_size_x, abs(transform[4]) as
pixel_size_y, transform[2] as origin_x, transform[5] as origin_y; the
central meridian of the selected UTM zone is (zone-1)*6-180+3 degrees. -/
noncomputable def GeoTransform.init (t : ℝ × ℝ × ℝ × ℝ × ℝ × ℝ) (utm_zone : ℤ) :
    GeoTransform :=
  ⟨t.1, |t.2.2.2.2.1|, t.2.2.1, t.2.2.2.2.2, utm_zone,
    ((utm_zone : ℝ) - 1) * 6 - 180 + 3⟩

/-- GeoTransform._latlon_to_utm (core.py lines 190-211): transverse
Mercator forward projection on the WGS84 ellipsoid with truncated series
for the meridional arc. -/
noncomputable def GeoTransform.latlon_to_utm (g : GeoTransform) (lat lon : ℝ) :
    ℝ × ℝ :=
  let e2 := 2 * wgs84F - wgs84F ^ 2
  let e_prime2 := e2 / (1 - e2)
  let lat_rad := radians lat
  let lon_rad := radians lon
  let lon0_rad := radians g.central_meridian
  let N := wgs84A / Real.sqrt (1 - e2 * Real.sin lat_rad ^ 2)
  let T := Real.tan lat_rad ^ 2
  let C := e_prime2 * Real.cos lat_rad ^ 2
  let A := (lon_rad - lon0_rad) * Real.cos lat_rad
  let M := wgs84A * ((1 - e2 / 4 - 3 * e2 ^ 2 / 64 - 5 * e2 ^ 3 / 256) * lat_rad
      - (3 * e2 / 8 + 3 * e2 ^ 2 / 32 + 45 * e2 ^ 3 / 1024) * Real.sin (2 * lat_rad)
      + (15 * e2 ^ 2 / 256 + 45 * e2 ^ 3 / 1024) * Real.sin (4 * lat_rad)
      - (35 * e2 ^ 3 / 3072) * Real.sin (6 * lat_rad))
  let x := utmK0 * N * (A + (1 - T + C) * A ^ 3 / 6
      + (5 - 18 * T + T ^ 2 + 72 * C - 58 * e_prime2) * A ^ 5 / 120) + 500000
  let y := utmK0 * (M + N * Real.tan lat_rad * (A ^ 2 / 2
      + (5 - T + 9 * C + 4 * C ^ 2) * A ^ 4 / 24
      + (61 - 58 * T + T ^ 2 + 600 * C - 330 * e_prime2) * A ^ 6 / 720))
  (x, y)

/-- GeoTransform._utm_to_latlon (core.py lines 213-236): transverse
Mercator inverse projection via the footprint-latitude series. -/
noncomputable def GeoTransform.utm_to_latlon (g : GeoTransform) (x0 y0 : ℝ) :
    ℝ × ℝ :=
  let e2 := 2 * wgs84F - wgs84F ^ 2
  let e1 := (1 - Real.sqrt (1 - e2)) / (1 + Real.sqrt (1 - e2))
  let x := x0 - 500000
  let M := y0 / utmK0
  let mu := M / (wgs84A * (1 - e2 / 4 - 3 * e2 ^ 2 / 64 - 5 * e2 ^ 3 / 256))
  let phi1 := mu + (3 * e1 / 2 - 27 * e1 ^ 3 / 32) * Real.sin (2 * mu)
      + (21 * e1 ^ 2 / 16 - 55 * e1 ^ 4 / 32) * Real.sin (4 * mu)
      + (151 * e1 ^ 3 / 96) * Real.sin (6 * mu)
  let N1 := wgs84A / Real.sqrt (1 - e2 * Real.sin phi1 ^ 2)
  let T1 := Real.tan phi1 ^ 2
  let C1 := (e2 / (1 - e2)) * Real.cos phi1 ^ 2
  let R1 := wgs84A * (1 - e2) / (1 - e2 * Real.sin phi1 ^ 2) ^ (1.5 : ℝ)
  let D := x / (N1 * utmK0)
  let lat := phi1 - (N1 * Real.tan phi1 / R1) * (D ^ 2 / 2
      - (5 + 3 * T1 + 10 * C1 - 4 * C1 ^ 2 - 9 * (e2 / (1 - e2))) * D ^ 4 / 24
      + (61 + 90 * T1 + 298 * C1 + 45 * T1 ^ 2 - 252 * (e2 / (1 - e2))
          - 3 * C1 ^ 2) * D ^ 6 / 720)
  let lon := radians g.central_meridian + (D - (1 + 2 * T1 + C1) * D ^ 3 / 6
      + (5 - 2 * C1 + 28 * T1 - 3 * C1 ^ 2 + 8 * (e2 / (1 - e2))
          + 24 * T1 ^ 2) * D ^ 5 / 120) / Real.cos phi1
  (degrees lat, degrees lon)

/-- GeoTransform.latlon_to_pixel (core.py lines 163-171): project to UTM,
invert the affine transform, truncate to integers. -/
noncomputable def GeoTransform.latlon_to_pixel (g : GeoTransform) (lat lon : ℝ) :
    ℤ × ℤ :=
  let u := g.latlon_to_utm lat lon
  (truncInt ((u.1 - g.origin_x) / g.pixel_size_x),
   truncInt ((g.origin_y - u.2) / g.pixel_size_y))

/-- GeoTransform.pixel_to_latlon (core.py lines 173-180): apply the
affine transform, invert the projection. -/
noncomputable def GeoTransform.pixel_to_latlon (g : GeoTransform) (px py : ℤ) :
    ℝ × ℝ :=
  let utm_x := g.origin_x + (px : ℝ) * g.pixel_size_x
  let utm_y := g.origin_y - (py : ℝ) * g.pixel_size_y
  g.utm_to_latlon utm_x utm_y

/-- GeoTransform.fov_to_pixels (core.py lines 182-188): ground footprint
2 * altitude * tan(fov/2 in radians), divided by each pixel size and
truncated. -/
noncomputable def GeoTransform.fov_to_pixels (g : GeoTransform)
    (altitude_m fov_deg : ℝ) : ℤ × ℤ :=
  let ground_width := 2 * altitude_m * Real.tan (radians (fov_deg / 2))
  (truncInt (ground_width / g.pixel_size_x),
   truncInt (ground_width / g.pixel_size_y))

/-! Drone simulation and flight paths (drone.py). -/

/-- DroneState (drone.py lines 14-23): one waypoint. -/
structure DroneState where
  lat : ℝ
  lon : ℝ
  altitude_m : ℝ
  heading_deg : ℝ := 0.0
  fov_deg : ℝ := 60.0
  speed_ms : ℝ := 0.0
  timestamp : ℝ := 0.0

instance : Inhabited DroneState := ⟨{ lat := 0, lon := 0, altitude_m := 0 }⟩

/-- WindowParams (drone.py lines 26-37): a pixel rectangle. -/
structure WindowParams where
  x : ℤ
  y : ℤ
  width : ℤ
  height : ℤ
deriving DecidableEq

instance : Inhabited WindowParams := ⟨⟨0, 0, 0, 0⟩⟩

/-- WindowParams.is_valid (drone.py lines 34-37): the bounds check used
by the simulator.  Note it does NOT require width or height to be
positive. -/
def WindowParams.is_valid (p : WindowParams) (map_width map_height : ℤ) : Bool :=
  decide (0 ≤ p.x) && decide (0 ≤ p.y) &&
  decide (p.x + p.width ≤ map_width) && decide (p.y + p.height ≤ map_height)

/-- FlightPath (drone.py lines 40-60): an ordered waypoint list. -/
structure FlightPath where
  waypoints : List DroneState

/-- numpy.linspace with endpoint=True: num evenly spaced samples from
start to stop inclusive; [start] when num = 1, empty when num = 0. -/
noncomputable def linspace (start stop : ℝ) (num : ℕ) : List ℝ :=
  if num = 0 then []
  else if num = 1 then [start]
  else (List.range num).map
    (fun (i : ℕ) => start + (i : ℝ) * ((stop - start) / ((num : ℝ) - 1)))

/-- numpy.linspace with endpoint=False: num samples with step
(stop-start)/num, stop excluded; empty when num = 0. -/
noncomputable def linspaceNoEndpoint (start stop : ℝ) (num : ℕ) : List ℝ :=
  (List.range num).map
    (fun (i : ℕ) => start + (i : ℝ) * ((stop - start) / (num : ℝ)))

/-- FlightPath.spiral (drone.py lines 62-92): waypoint i at heading
i*(360/num) with radial offset radius_deg*(i+1), altitude cycling
through the altitudes list, timestamp i. -/
noncomputable def FlightPath.spiral (center_lat center_lon : ℝ)
    (num_waypoints : ℕ) (altitudes : List ℝ) (radius_deg fov_deg : ℝ) :
    FlightPath :=
  let headings := linspaceNoEndpoint 0 360 num_waypoints
  ⟨(List.range num_waypoints).map (fun (i : ℕ) =>
      let radius := radius_deg * ((i : ℝ) + 1)
      let angle := radians (headings.getD i 0)
      { lat := center_lat + radius * Real.cos angle
        lon := center_lon + radius * Real.sin angle
        altitude_m := altitudes.getD (i % altitudes.length) 0
        heading_deg := headings.getD i 0
        fov_deg := fov_deg
        timestamp := (i : ℝ) })⟩

/-- FlightPath.linear (drone.py lines 94-120): waypoints interpolated
between start and end inclusive, one shared bearing, timestamp = index. -/
noncomputable def FlightPath.linear (start_lat start_lon end_lat end_lon : ℝ)
    (num_waypoints : ℕ) (altitude_m fov_deg : ℝ) : FlightPath :=
  let lats := linspace start_lat end_lat num_waypoints
  let lons := linspace start_lon end_lon num_waypoints
  let heading := degrees (atan2 (end_lon - start_lon) (end_lat - start_lat))
  ⟨(lats.zip lons).enum.map (fun p =>
      { lat := p.2.1
        lon := p.2.2
        altitude_m := altitude_m
        heading_deg := heading
        fov_deg := fov_deg
        timestamp := (p.1 : ℝ) })⟩

/-- Row loop of FlightPath.grid (drone.py lines 139-152): for each
latitude (row index i, running timestamp t), traverse the longitudes in
ascending order with heading 90 on even rows and descending with
heading 270 on odd rows, incrementing the timestamp per waypoint. -/
noncomputable def gridRows (lons : List ℝ) (altitude_m fov_deg : ℝ) :
    ℕ → ℕ → List ℝ → List DroneState
  | _, _, [] => []
  | i, t, lat :: rest =>
      let lon_order := if i % 2 = 0 then lons else lons.reverse
      let heading : ℝ := if i % 2 = 0 then 90 else 270
      (lon_order.enum.map (fun p =>
        { lat := lat
          lon := p.2
          altitude_m := altitude_m
          heading_deg := heading
          fov_deg := fov_deg
          timestamp := ((t + p.1 : ℕ) : ℝ) }))
        ++ gridRows lons altitude_m fov_deg (i + 1) (t + lon_order.length) rest

/-- FlightPath.grid (drone.py lines 122-154): boustrophedon survey over
linspace latitudes and longitudes. -/
noncomputable def FlightPath.grid (min_lat min_lon max_lat max_lon : ℝ)
    (rows cols : ℕ) (altitude_m fov_deg : ℝ) : FlightPath :=
  let lats := linspace min_lat max_lat rows
  let lons := linspace min_lon max_lon cols
  ⟨gridRows lons altitude_m fov_deg 0 0 lats⟩

/-- FlightPath.state_to_window (drone.py lines 156-161): pixel center
via latlon_to_pixel, footprint via fov_to_pixels, centering with Python
floor division by 2. -/
noncomputable def FlightPath.state_to_window (state : DroneState)
    (geo : GeoTransform) : WindowParams :=
  let c := geo.latlon_to_pixel state.lat state.lon
  let wh := geo.fov_to_pixels state.altitude_m state.fov_deg
  ⟨c.1 - Int.fdiv wh.1 2, c.2 - Int.fdiv wh.2 2, wh.1, wh.2⟩

/-- FlightPath.compute_windows (drone.py lines 163-165). -/
noncomputable def FlightPath.compute_windows (p : FlightPath)
    (geo : GeoTransform) : List WindowParams :=
  p.waypoints.map (fun state => FlightPath.state_to_window state geo)

/-- Loop body of simulate_flight (drone.py lines 187-198) over the
zipped (state, window) list: invalid windows append the no-data
placeholder none; valid windows append the extracted copy and invoke the
callback, whose invocations are collected in order in the second
component. -/
noncomputable def simLoop (loader : FastGeoMap α) [Inhabited α] :
    List (DroneState × WindowParams) →
      List (Option (NDArray α)) × List (DroneState × NDArray α)
  | [] => ([], [])
  | (state, win) :: rest =>
      let r := simLoop loader rest
      if win.is_valid (loader.meta.width : ℤ) (loader.meta.height : ℤ) then
        let data := loader.get_window_copy win.x win.y win.width win.height
        (some data :: r.1, (state, data) :: r.2)
      else
        (none :: r.1, r.2)

/-- simulate_flight (drone.py lines 168-199): build the GeoTransform
from the loader metadata's affine transform with the default UTM zone,
compute all windows, then run the extraction loop.  The first component
is the returned results list; the second records the callback
invocations in order. -/
noncomputable def simulate_flight (loader : FastGeoMap α) [Inhabited α]
    (path : FlightPath) :
    List (Option (NDArray α)) × List (DroneState × NDArray α) :=
  let geo := GeoTransform.init loader.meta.transform 36
  let windows := path.compute_windows geo
  simLoop loader (path.waypoints.zip windows)

/-! Concrete instances used as inputs of counterexamples and witnesses. -/

/-- A 1 x 1 x 1 uint8 metadata record. -/
noncomputable def metaTiny : GeoMetadata :=
  ⟨"uint8", 1, 1, 1, (0, 0, 0, 0, 0, 0), none⟩

/-- The metadata of the test fixture (tests/test_geoslice.py lines
21-28): 3 bands, 100 x 200, half-meter pixels. -/
noncomputable def metaTest : GeoMetadata :=
  ⟨"uint8", 3, 100, 200, (0.5, 0.0, 1000.0, 0.0, -0.5, 2000.0),
    Option.some ("EPSG:32636")⟩

/-- A value-level store over the test fixture metadata with BSQ ramp
contents. -/
noncomputable def mapTest : FastGeoMap ℕ :=
  ⟨metaTest, fun b i j => (b * 100 + i) * 200 + j⟩

/-- An allocation-level store over the test fixture metadata, backed by
buffer 0 of a heap whose next free id is 1. -/
noncomputable def storeTest : StoreRef := ⟨metaTest, 0⟩

/-- A heap holding only the store's backing buffer. -/
def heapTest : Heap ℕ := ⟨fun _ p => p, 1⟩

/-- A 1-band 10 x 10 raster whose affine transform places UTM
(500000, 0) at pixel (0, 0) with unit pixel size. -/
noncomputable def mapCE : FastGeoMap ℕ :=
  ⟨⟨"uint8", 1, 10, 10, (1, 0, 500000, 0, -1, 0), none⟩, fun _ _ _ => 0⟩

/-- A single waypoint at the equator on the zone-36 central meridian
(33 degrees east) at altitude 0, so its sensor footprint is 0 x 0
pixels. -/
noncomputable def pathCE : FlightPath :=
  ⟨[{ lat := 0, lon := 33, altitude_m := 0, heading_deg := 0, fov_deg := 60,
      speed_ms := 0, timestamp := 0 }]⟩

/-- A transform with unit pixel sizes. -/
noncomputable def geoUnit : GeoTransform :=
  GeoTransform.init (1, 0, 500000, 0, -1, 0) 36

/-! Theorems. -/

/-- Claim C3: for every integers x, y, w, h and every raster store,
is_valid_window x y w h returns true if and only if x >= 0, y >= 0,
w > 0, h > 0, x + w <= raster width and y + h <= raster height; as a
plain function of its arguments it performs no clamping and modifies no
state. -/
theorem is_valid_window_iff (m : FastGeoMap α) (x y w h : ℤ) :
    m.is_valid_window x y w h = true ↔
      0 ≤ x ∧ 0 ≤ y ∧ 0 < w ∧ 0 < h ∧
        x + w ≤ (m.meta.width : ℤ) ∧ y + h ≤ (m.meta.height : ℤ) := by
  simp only [FastGeoMap.is_valid_window, Bool.and_eq_true, decide_eq_true_eq]
  tauto

/-- Claim C3 witness: the strict predicate evaluated on the test
fixture. -/
theorem is_valid_window_iff_witness :
    mapTest.is_valid_window 190 90 10 10 = true :=
  (is_valid_window_iff mapTest 190 90 10 10).mpr
    (by refine ⟨by norm_num, by norm_num, by norm_num, by norm_num, ?_, ?_⟩ <;>
          simp [mapTest, metaTest])

/-- Claim C4 counterexample: with 1 x 1 x 1 uint8 metadata and a 2-byte
binary buffer, the buffer length differs from
bands * height * width * element-size (2 vs 1), yet construction
succeeds instead of raising. -/
theorem initCheck_oversized_accepted :
    fastGeoMapInitCheck metaTiny 2 = Except.ok (1, 1, 1) ∧
      2 ≠ metaTiny.count * metaTiny.height * metaTiny.width * 1 := by
  constructor
  · rfl
  · show 2 ≠ 1 * 1 * 1 * 1
    norm_num

/-- Claim C4 (amended): construction raises if and only if the supplied
buffer is SHORTER than bands * height * width * element-size (the numpy
memmap size check); a buffer longer than the formula is accepted with
the leading prefix mapped, so a store is never created over a buffer
shorter than the formula; the check happens once, synchronously at
construction. -/
theorem initCheck_size (meta : GeoMetadata) (binLen isize : ℕ)
    (hdt : npItemsize meta.dtype = some isize) :
    (fastGeoMapInitCheck meta binLen = Except.error InitError.mmapTooSmall ↔
      binLen < meta.count * meta.height * meta.width * isize) ∧
    (fastGeoMapInitCheck meta binLen =
        Except.ok (meta.count, meta.height, meta.width) ↔
      meta.count * meta.height * meta.width * isize ≤ binLen) := by
  simp only [fastGeoMapInitCheck, hdt]
  by_cases hlt : binLen < meta.count * meta.height * meta.width * isize
  · rw [if_pos hlt]
    simp [hlt, Nat.not_le.mpr hlt]
  · rw [if_neg hlt]
    simp [hlt, Nat.not_lt.mp hlt]

/-- Claim C4 witness: a 0-byte buffer for the 1 x 1 x 1 uint8 metadata
is rejected as too small. -/
theorem initCheck_size_witness :
    fastGeoMapInitCheck metaTiny 0 = Except.error InitError.mmapTooSmall :=
  (initCheck_size metaTiny 0 1 rfl).1.mpr (by show 0 < 1 * 1 * 1 * 1; norm_num)

/-- Claim C2: get_window is total over all integer arguments; it clamps
x and y to be nonnegative and clamps width and height so the window fits
the raster; when the clamped width or height is nonpositive it returns
an empty zero-size result preserving the band dimension; otherwise the
result has the clamped shape and reads the backing data at the clamped
offsets; on a 3-band 100 x 200 raster, get_window 195 95 20 20 has
shape (3, 5, 5). -/
theorem get_window_clamps (m : FastGeoMap α) [Inhabited α] (x y w h : ℤ) :
    ((m.get_window x y w h).bands = m.meta.count) ∧
    (min w ((m.meta.width : ℤ) - max 0 x) ≤ 0 ∨
        min h ((m.meta.height : ℤ) - max 0 y) ≤ 0 →
      (m.get_window x y w h).shape = (m.meta.count, 0, 0)) ∧
    (0 < min w ((m.meta.width : ℤ) - max 0 x) →
      0 < min h ((m.meta.height : ℤ) - max 0 y) →
      (m.get_window x y w h).shape =
          (m.meta.count, (min h ((m.meta.height : ℤ) - max 0 y)).toNat,
            (min w ((m.meta.width : ℤ) - max 0 x)).toNat) ∧
        0 ≤ max 0 x ∧ 0 ≤ max 0 y ∧
        max 0 x + min w ((m.meta.width : ℤ) - max 0 x) ≤ (m.meta.width : ℤ) ∧
        max 0 y + min h ((m.meta.height : ℤ) - max 0 y) ≤ (m.meta.height : ℤ) ∧
        ∀ b i j, (m.get_window x y w h).elem b i j =
          m.data b ((max 0 y).toNat + i) ((max 0 x).toNat + j)) ∧
    (m.meta.count = 3 → m.meta.height = 100 → m.meta.width = 200 →
      (m.get_window 195 95 20 20).shape = (3, 5, 5)) := by
  refine ⟨?_, ?_, ?_, ?_⟩
  · simp only [FastGeoMap.get_window]
    split <;> rfl
  · intro hdeg
    simp only [FastGeoMap.get_window, NDArray.shape]
    rw [if_pos hdeg]
  · intro hw hh
    simp only [FastGeoMap.get_window, NDArray.shape]
    rw [if_neg (by push_neg; exact ⟨hw, hh⟩)]
    have hx0 : (0 : ℤ) ≤ max 0 x := le_max_left 0 x
    have hy0 : (0 : ℤ) ≤ max 0 y := le_max_left 0 y
    have hwle := min_le_right w ((m.meta.width : ℤ) - max 0 x)
    have hhle := min_le_right h ((m.meta.height : ℤ) - max 0 y)
    exact ⟨rfl, hx0, hy0, by omega, by omega, fun b i j => rfl⟩
  · intro h3 h100 h200
    simp only [FastGeoMap.get_window, NDArray.shape, h3, h100, h200]
    norm_num
    rfl

/-- Claim C2 witness: the clamped window of the test fixture store. -/
theorem get_window_clamps_witness :
    (mapTest.get_window 195 95 20 20).shape = (3, 5, 5) :=
  (get_window_clamps mapTest 195 95 20 20).2.2.2 rfl rfl rfl

/-- The grid row loop over an empty longitude list yields no waypoint,
whatever the latitude rows. -/
theorem gridRows_nil (altitude_m fov_deg : ℝ) (i t : ℕ) (lats : List ℝ) :
    gridRows [] altitude_m fov_deg i t lats = [] := by
  induction lats generalizing i t with
  | nil => rfl
  | cons lat rest ih => simp [gridRows, ih]

/-- Claim C10: each generator is total at the degenerate count: spiral
with 0 waypoints, linear with 0 waypoints, and grid with 0 rows or 0
columns each return the empty flight path rather than failing. -/
theorem generators_empty_at_degenerate (clat clon slat slon elat elon
    minLat minLon maxLat maxLon alt fov radius : ℝ) (alts : List ℝ) :
    (FlightPath.spiral clat clon 0 alts radius fov).waypoints = [] ∧
    (FlightPath.linear slat slon elat elon 0 alt fov).waypoints = [] ∧
    (∀ rows cols : ℕ, rows = 0 ∨ cols = 0 →
      (FlightPath.grid minLat minLon maxLat maxLon rows cols alt
          fov).waypoints = []) := by
  refine ⟨rfl, rfl, ?_⟩
  intro rows cols hdeg
  rcases hdeg with h | h
  · subst h
    simp [FlightPath.grid, linspace, gridRows]
  · subst h
    simp only [FlightPath.grid, linspace, if_pos rfl]
    exact gridRows_nil alt fov 0 0 _

/-- Claim C10 witness: a 0 x 5 grid is empty. -/
theorem generators_empty_at_degenerate_witness :
    (FlightPath.grid 0 0 1 1 0 5 100 60).waypoints = [] :=
  (generators_empty_at_degenerate 0 0 0 0 0 0 0 0 1 1 100 60 0 []).2.2 0 5
    (Or.inl rfl)

/-- Decomposing the contiguous C-order flat index of a 3-D array back
into its coordinates. -/
theorem flat_index_roundtrip (b i j rows cols : ℕ) (hi : i < rows)
    (hj : j < cols) :
    ((b * rows + i) * cols + j) / (rows * cols) = b ∧
    ((b * rows + i) * cols + j) % (rows * cols) / cols = i ∧
    ((b * rows + i) * cols + j) % cols = j := by
  have hcpos : 0 < cols := Nat.lt_of_le_of_lt (Nat.zero_le j) hj
  have hrcpos : 0 < rows * cols :=
    Nat.mul_pos (Nat.lt_of_le_of_lt (Nat.zero_le i) hi) hcpos
  have hform : (b * rows + i) * cols + j = rows * cols * b + (i * cols + j) := by ring
  have hlt : i * cols + j < rows * cols := by
    calc i * cols + j < i * cols + cols := by omega
    _ = (i + 1) * cols := by ring
    _ ≤ rows * cols := Nat.mul_le_mul_right cols (by omega)
  refine ⟨?_, ?_, ?_⟩
  · rw [hform, Nat.mul_add_div hrcpos, Nat.div_eq_of_lt hlt, Nat.add_zero]
  · rw [hform, Nat.mul_add_mod, Nat.mod_eq_of_lt hlt]
    have : i * cols + j = cols * i + j := by ring
    rw [this, Nat.mul_add_div hcpos, Nat.div_eq_of_lt hj, Nat.add_zero]
  · have : (b * rows + i) * cols + j = cols * (b * rows + i) + j := by ring
    rw [this, Nat.mul_add_mod, Nat.mod_eq_of_lt hj]

/-- Claim C5: the copy has the same shape as the view, its elements
equal the view's elements (same addressing and clamping), its backing
buffer is freshly allocated and distinct from the store's, making the
copy leaves the store's backing buffer unchanged, and mutating the
copy's buffer afterwards also leaves the store's backing buffer (hence
every subsequent read from the store) unchanged. -/
theorem get_window_copy_independent (s : StoreRef) (hp : Heap α)
    (x y w h : ℤ) (halloc : s.bufId < hp.nextId) :
    ((getWindowCopyRef s hp x y w h).1.bands =
        (getWindowRef s hp x y w h).1.bands ∧
      (getWindowCopyRef s hp x y w h).1.rows =
        (getWindowRef s hp x y w h).1.rows ∧
      (getWindowCopyRef s hp x y w h).1.cols =
        (getWindowRef s hp x y w h).1.cols) ∧
    (∀ b i j, i < (getWindowRef s hp x y w h).1.rows →
      j < (getWindowRef s hp x y w h).1.cols →
      (getWindowCopyRef s hp x y w h).2.read
          (getWindowCopyRef s hp x y w h).1 b i j =
        (getWindowRef s hp x y w h).2.read (getWindowRef s hp x y w h).1 b i j) ∧
    (getWindowCopyRef s hp x y w h).1.bufId ≠ s.bufId ∧
    (∀ p, (getWindowCopyRef s hp x y w h).2.buf s.bufId p = hp.buf s.bufId p) ∧
    (∀ pos v p,
      ((getWindowCopyRef s hp x y w h).2.write
          (getWindowCopyRef s hp x y w h).1.bufId pos v).buf s.bufId p =
        (getWindowCopyRef s hp x y w h).2.buf s.bufId p) := by
  have hnext : (getWindowRef s hp x y w h).2.nextId = hp.nextId ∨
      (getWindowRef s hp x y w h).2.nextId = hp.nextId + 1 := by
    simp only [getWindowRef]
    split
    · right; rfl
    · left; rfl
  have hfresh : (getWindowCopyRef s hp x y w h).1.bufId ≠ s.bufId := by
    simp only [getWindowCopyRef]
    rcases hnext with hn | hn <;> rw [hn] <;> omega
  have hbufeq : (getWindowRef s hp x y w h).2.buf = hp.buf := by
    simp only [getWindowRef]
    split <;> rfl
  refine ⟨⟨rfl, rfl, rfl⟩, ?_, hfresh, ?_, ?_⟩
  · intro b i j hi hj
    simp only [getWindowCopyRef, Heap.read, if_true]
    have hdec := flat_index_roundtrip b i j (getWindowRef s hp x y w h).1.rows
      (getWindowRef s hp x y w h).1.cols hi hj
    rw [hdec.1, hdec.2.1, hdec.2.2]
  · intro p
    simp only [getWindowCopyRef]
    rw [if_neg (by rcases hnext with hn | hn <;> rw [hn] <;> omega), hbufeq]
  · intro pos v p
    simp only [Heap.write]
    rw [if_neg (by intro hcontra; exact hfresh hcontra.1.symm)]

/-- Claim C5 witness: the copy of a window of the test store is backed
by a fresh buffer whose mutation never reaches the store's buffer. -/
theorem get_window_copy_independent_witness :
    (getWindowCopyRef storeTest heapTest 0 0 10 10).1.bufId ≠ storeTest.bufId :=
  (get_window_copy_independent storeTest heapTest 0 0 10 10
    (by show 0 < 1; norm_num)).2.2.1

/-- Closed form of the simulation loop run over a waypoint list zipped
with its computed windows: the results are a map over the waypoints and
the callback invocations are the filtered sublist of valid extractions
in order. -/
theorem simLoop_zip_map (loader : FastGeoMap α) [Inhabited α]
    (geo : GeoTransform) (l : List DroneState) :
    simLoop loader (l.zip (l.map (fun s => FlightPath.state_to_window s geo))) =
      (l.map (fun s =>
          if (FlightPath.state_to_window s geo).is_valid (loader.meta.width : ℤ)
              (loader.meta.height : ℤ) then
            some (loader.get_window_copy (FlightPath.state_to_window s geo).x
              (FlightPath.state_to_window s geo).y
              (FlightPath.state_to_window s geo).width
              (FlightPath.state_to_window s geo).height)
          else none),
        l.filterMap (fun s =>
          if (FlightPath.state_to_window s geo).is_valid (loader.meta.width : ℤ)
              (loader.meta.height : ℤ) then
            some (s, loader.get_window_copy (FlightPath.state_to_window s geo).x
              (FlightPath.state_to_window s geo).y
              (FlightPath.state_to_window s geo).width
              (FlightPath.state_to_window s geo).height)
          else none)) := by
  induction l with
  | nil => rfl
  | cons a as ih =>
      have ihz := ih
      unfold List.zip at ihz
      simp only [List.map_cons, List.zip_cons_cons, List.filterMap_cons, simLoop,
        ihz, Prod.fst, Prod.snd]
      by_cases hv : (FlightPath.state_to_window a geo).is_valid
          (loader.meta.width : ℤ) (loader.meta.height : ℤ) = true
      · simp only [hv, if_true]
      · simp only [Bool.not_eq_true] at hv
        simp only [hv, Bool.false_eq_true, if_false]

/-- Closed form of simulate_flight itself. -/
theorem simulate_flight_eq (loader : FastGeoMap α) [Inhabited α]
    (path : FlightPath) :
    simulate_flight loader path =
      (path.waypoints.map (fun s =>
          if (FlightPath.state_to_window s
                (GeoTransform.init loader.meta.transform 36)).is_valid
              (loader.meta.width : ℤ) (loader.meta.height : ℤ) then
            some (loader.get_window_copy
              (FlightPath.state_to_window s
                (GeoTransform.init loader.meta.transform 36)).x
              (FlightPath.state_to_window s
                (GeoTransform.init loader.meta.transform 36)).y
              (FlightPath.state_to_window s
                (GeoTransform.init loader.meta.transform 36)).width
              (FlightPath.state_to_window s
                (GeoTransform.init loader.meta.transform 36)).height)
          else none),
        path.waypoints.filterMap (fun s =>
          if (FlightPath.state_to_window s
                (GeoTransform.init loader.meta.transform 36)).is_valid
              (loader.meta.width : ℤ) (loader.meta.height : ℤ) then
            some (s, loader.get_window_copy
              (FlightPath.state_to_window s
                (GeoTransform.init loader.meta.transform 36)).x
              (FlightPath.state_to_window s
                (GeoTransform.init loader.meta.transform 36)).y
              (FlightPath.state_to_window s
                (GeoTransform.init loader.meta.transform 36)).width
              (FlightPath.state_to_window s
                (GeoTransform.init loader.meta.transform 36)).height)
          else none)) := by
  unfold simulate_flight FlightPath.compute_windows
  exact simLoop_zip_map loader (GeoTransform.init loader.meta.transform 36)
    path.waypoints

/-- Claim C1 (amended): simulate_flight returns one entry per waypoint
in path order, entry i derived from waypoint i by latlon_to_pixel,
fov_to_pixels and floor-division centering; the entry is the
get_window_copy extraction when the window passes the simulator's
validity check, which requires x >= 0, y >= 0, x + width <= raster
width and y + height <= raster height but does NOT require width or
height to be positive, and the no-data placeholder otherwise, nothing
skipped or reordered; the callback is invoked, in path order, exactly
for the waypoints passing that check. -/
theorem simulate_flight_per_waypoint (loader : FastGeoMap α) [Inhabited α]
    (path : FlightPath) :
    (simulate_flight loader path).1.length = path.waypoints.length ∧
    (simulate_flight loader path).1 = path.waypoints.map (fun s =>
        if (FlightPath.state_to_window s
              (GeoTransform.init loader.meta.transform 36)).is_valid
            (loader.meta.width : ℤ) (loader.meta.height : ℤ) then
          some (loader.get_window_copy
            (FlightPath.state_to_window s
              (GeoTransform.init loader.meta.transform 36)).x
            (FlightPath.state_to_window s
              (GeoTransform.init loader.meta.transform 36)).y
            (FlightPath.state_to_window s
              (GeoTransform.init loader.meta.transform 36)).width
            (FlightPath.state_to_window s
              (GeoTransform.init loader.meta.transform 36)).height)
        else none) ∧
    (simulate_flight loader path).2 = path.waypoints.filterMap (fun s =>
        if (FlightPath.state_to_window s
              (GeoTransform.init loader.meta.transform 36)).is_valid
            (loader.meta.width : ℤ) (loader.meta.height : ℤ) then
          some (s, loader.get_window_copy
            (FlightPath.state_to_window s
              (GeoTransform.init loader.meta.transform 36)).x
            (FlightPath.state_to_window s
              (GeoTransform.init loader.meta.transform 36)).y
            (FlightPath.state_to_window s
              (GeoTransform.init loader.meta.transform 36)).width
            (FlightPath.state_to_window s
              (GeoTransform.init loader.meta.transform 36)).height)
        else none) := by
  refine ⟨?_, ?_, ?_⟩
  · rw [simulate_flight_eq]
    exact List.length_map _ _
  · rw [simulate_flight_eq]
  · rw [simulate_flight_eq]

/-- Claim C9: simulate_flight ignores the coordinate-reference
identifier: stores whose metadata agree on everything but crs produce
identical outputs, and the transform is built from the affine transform
with the default UTM zone 36, whose central meridian is 33 degrees. -/
theorem simulate_flight_crs_free {α : Type} [Inhabited α]
    (dt : String) (c hgt wd : ℕ) (t : ℝ × ℝ × ℝ × ℝ × ℝ × ℝ)
    (crs1 crs2 : Option String) (data : ℕ → ℕ → ℕ → α) (path : FlightPath) :
    simulate_flight ⟨⟨dt, c, hgt, wd, t, crs1⟩, data⟩ path =
      simulate_flight ⟨⟨dt, c, hgt, wd, t, crs2⟩, data⟩ path ∧
    (GeoTransform.init t 36).utm_zone = 36 ∧
    (GeoTransform.init t 36).central_meridian = 33 := by
  refine ⟨?_, rfl, by norm_num [GeoTransform.init]⟩
  rw [simulate_flight_eq, simulate_flight_eq]
  rfl

/-- Converting zero degrees gives zero radians. -/
theorem radians_zero : radians 0 = 0 := by
  unfold radians
  ring

/-- Truncation of zero. -/
theorem truncInt_zero : truncInt 0 = 0 := by
  unfold truncInt
  rw [if_pos le_rfl]
  exact Int.floor_zero

/-- On the equator at the central meridian the forward projection lands
exactly on the false easting with zero northing. -/
theorem latlon_to_utm_equator_cm (g : GeoTransform) :
    g.latlon_to_utm 0 g.central_meridian = (500000, 0) := by
  unfold GeoTransform.latlon_to_utm
  simp only [radians_zero, Real.sin_zero, Real.cos_zero, Real.tan_zero, mul_zero,
    zero_mul, mul_one, sub_self, ne_eq]
  norm_num

/-- The window derived from the counterexample waypoint: pixel center
(0, 0) and a 0 x 0 footprint, hence the window (0, 0, 0, 0). -/
theorem stateCE_window :
    FlightPath.state_to_window (pathCE.waypoints.getD 0 default)
      (GeoTransform.init mapCE.meta.transform 36) = ⟨0, 0, 0, 0⟩ := by
  have hstate : pathCE.waypoints.getD 0 default =
      { lat := 0, lon := 33, altitude_m := 0, heading_deg := 0, fov_deg := 60,
        speed_ms := 0, timestamp := 0 } := rfl
  have hcm : (GeoTransform.init mapCE.meta.transform 36).central_meridian = 33 := by
    show (((36 : ℤ) : ℝ) - 1) * 6 - 180 + 3 = 33
    norm_num
  have hutm : (GeoTransform.init mapCE.meta.transform 36).latlon_to_utm 0 33 =
      (500000, 0) := by
    rw [← hcm]
    exact latlon_to_utm_equator_cm _
  have hpx : (GeoTransform.init mapCE.meta.transform 36).latlon_to_pixel 0 33 =
      (0, 0) := by
    unfold GeoTransform.latlon_to_pixel
    rw [hutm]
    have hox : (GeoTransform.init mapCE.meta.transform 36).origin_x = 500000 := rfl
    have hoy : (GeoTransform.init mapCE.meta.transform 36).origin_y = 0 := rfl
    have hpsx : (GeoTransform.init mapCE.meta.transform 36).pixel_size_x = 1 := rfl
    have hpsy : (GeoTransform.init mapCE.meta.transform 36).pixel_size_y = 1 := by
      show |(-1 : ℝ)| = 1
      norm_num
    rw [hox, hoy, hpsx, hpsy]
    norm_num [truncInt_zero]
  have hfov : (GeoTransform.init mapCE.meta.transform 36).fov_to_pixels 0 60 =
      (0, 0) := by
    unfold GeoTransform.fov_to_pixels
    have hpsx : (GeoTransform.init mapCE.meta.transform 36).pixel_size_x = 1 := rfl
    have hpsy : (GeoTransform.init mapCE.meta.transform 36).pixel_size_y = 1 := by
      show |(-1 : ℝ)| = 1
      norm_num
    rw [hpsx, hpsy]
    norm_num [truncInt_zero]
  rw [hstate]
  dsimp only [FlightPath.state_to_window]
  rw [hpx, hfov]
  rfl

/-- Claim C1 counterexample: for the store mapCE and the one-waypoint
path pathCE, the derived window is (0, 0, 0, 0); its width is not
positive, so it violates the strict validity invariant and the claim
demands the no-data placeholder at index 0, yet simulate_flight returns
an extraction there. -/
theorem simulate_flight_strict_counterexample :
    (FlightPath.state_to_window (pathCE.waypoints.getD 0 default)
        (GeoTransform.init mapCE.meta.transform 36)).width = 0 ∧
    ¬ (0 < (FlightPath.state_to_window (pathCE.waypoints.getD 0 default)
        (GeoTransform.init mapCE.meta.transform 36)).width) ∧
    (simulate_flight mapCE pathCE).1.length = 1 ∧
    (simulate_flight mapCE pathCE).1.getD 0 none ≠ none := by
  have hwin := stateCE_window
  refine ⟨by rw [hwin], by rw [hwin]; norm_num, ?_, ?_⟩
  · rw [simulate_flight_eq]
    rfl
  · rw [simulate_flight_eq]
    have hl : pathCE.waypoints = [pathCE.waypoints.getD 0 default] := rfl
    rw [hl, List.map_cons, List.map_nil, hwin]
    simp [WindowParams.is_valid, mapCE]

/-- Truncation toward zero is monotone on the nonnegative reals. -/
theorem truncInt_le_truncInt (a b : ℝ) (h0 : 0 ≤ a) (hab : a ≤ b) :
    truncInt a ≤ truncInt b := by
  unfold truncInt
  rw [if_pos h0, if_pos (h0.trans hab)]
  exact Int.floor_le_floor hab

/-- Half of a field of view strictly between 0 and 180 degrees converts
to an angle strictly between 0 and a right angle. -/
theorem radians_half_fov_bounds (f : ℝ) (h0 : 0 < f) (h180 : f < 180) :
    0 < radians (f / 2) ∧ radians (f / 2) < Real.pi / 2 := by
  unfold radians
  constructor
  · have := Real.pi_pos
    positivity
  · have hpi := Real.pi_pos
    rw [div_lt_div_iff₀ (by norm_num : (0:ℝ) < 180) (by norm_num : (0:ℝ) < 2)]
    nlinarith

/-- The ground footprint 2 * altitude * tan(fov/2) is monotone in the
altitude and in the field of view on the claimed domain. -/
theorem ground_width_mono (a1 a2 f1 f2 : ℝ) (ha1 : 0 ≤ a1) (ha12 : a1 ≤ a2)
    (hf1 : 0 < f1) (hf12 : f1 ≤ f2) (hf2 : f2 < 180) :
    0 ≤ 2 * a1 * Real.tan (radians (f1 / 2)) ∧
    2 * a1 * Real.tan (radians (f1 / 2)) ≤ 2 * a2 * Real.tan (radians (f1 / 2)) ∧
    2 * a1 * Real.tan (radians (f1 / 2)) ≤ 2 * a1 * Real.tan (radians (f2 / 2)) := by
  obtain ⟨hb1, hb1'⟩ := radians_half_fov_bounds f1 hf1 (lt_of_le_of_lt hf12 hf2)
  obtain ⟨hb2, hb2'⟩ := radians_half_fov_bounds f2 (lt_of_lt_of_le hf1 hf12) hf2
  have htan1 : 0 ≤ Real.tan (radians (f1 / 2)) :=
    Real.tan_nonneg_of_nonneg_of_le_pi_div_two hb1.le hb1'.le
  have htanmono : Real.tan (radians (f1 / 2)) ≤ Real.tan (radians (f2 / 2)) := by
    rcases eq_or_lt_of_le hf12 with heq | hlt
    · rw [heq]
    · have hrlt : radians (f1 / 2) < radians (f2 / 2) := by
        unfold radians
        have hpi := Real.pi_pos
        have : f1 / 2 * Real.pi < f2 / 2 * Real.pi := by nlinarith
        linarith
      exact (Real.tan_lt_tan_of_nonneg_of_lt_pi_div_two hb1.le hb2' hrlt).le
  refine ⟨by positivity, ?_, ?_⟩
  · apply mul_le_mul_of_nonneg_right _ htan1
    linarith
  · apply mul_le_mul_of_nonneg_left htanmono
    linarith

/-- Claim C7: on a transform with positive pixel sizes, fov_to_pixels
returns on each axis the truncation of the ground footprint
2 * altitude * tan(fov/2 in radians) divided by that axis's pixel size,
and for nonnegative altitudes and fov strictly between 0 and 180
degrees it is monotonically non-decreasing in altitude at fixed fov and
in fov at fixed altitude. -/
theorem fov_to_pixels_spec (g : GeoTransform) (hx : 0 < g.pixel_size_x)
    (hy : 0 < g.pixel_size_y) :
    (∀ alt fov, g.fov_to_pixels alt fov =
      (truncInt ((2 * alt * Real.tan (radians (fov / 2))) / g.pixel_size_x),
       truncInt ((2 * alt * Real.tan (radians (fov / 2))) / g.pixel_size_y))) ∧
    (∀ fov a1 a2, 0 < fov → fov < 180 → 0 ≤ a1 → a1 ≤ a2 →
      (g.fov_to_pixels a1 fov).1 ≤ (g.fov_to_pixels a2 fov).1 ∧
      (g.fov_to_pixels a1 fov).2 ≤ (g.fov_to_pixels a2 fov).2) ∧
    (∀ alt f1 f2, 0 ≤ alt → 0 < f1 → f1 ≤ f2 → f2 < 180 →
      (g.fov_to_pixels alt f1).1 ≤ (g.fov_to_pixels alt f2).1 ∧
      (g.fov_to_pixels alt f1).2 ≤ (g.fov_to_pixels alt f2).2) := by
  refine ⟨fun alt fov => rfl, ?_, ?_⟩
  · intro fov a1 a2 hf0 hf180 ha1 ha12
    obtain ⟨hnn, hmono, _⟩ :=
      ground_width_mono a1 a2 fov fov ha1 ha12 hf0 le_rfl hf180
    unfold GeoTransform.fov_to_pixels
    constructor
    · exact truncInt_le_truncInt _ _ (div_nonneg hnn hx.le)
        ((div_le_div_iff_of_pos_right hx).mpr hmono)
    · exact truncInt_le_truncInt _ _ (div_nonneg hnn hy.le)
        ((div_le_div_iff_of_pos_right hy).mpr hmono)
  · intro alt f1 f2 ha hf1 hf12 hf2
    obtain ⟨hnn, _, hmono⟩ :=
      ground_width_mono alt alt f1 f2 ha le_rfl hf1 hf12 hf2
    unfold GeoTransform.fov_to_pixels
    constructor
    · exact truncInt_le_truncInt _ _ (div_nonneg hnn hx.le)
        ((div_le_div_iff_of_pos_right hx).mpr hmono)
    · exact truncInt_le_truncInt _ _ (div_nonneg hnn hy.le)
        ((div_le_div_iff_of_pos_right hy).mpr hmono)

/-- Claim C7 witness: on the unit-pixel transform, doubling the
altitude at a 60-degree field of view does not shrink the footprint. -/
theorem fov_to_pixels_spec_witness :
    (geoUnit.fov_to_pixels 100 60).1 ≤ (geoUnit.fov_to_pixels 200 60).1 :=
  ((fov_to_pixels_spec geoUnit (by norm_num [geoUnit, GeoTransform.init])
      (by show (0:ℝ) < |(-1 : ℝ)|; norm_num)).2.1 60 100 200 (by norm_num)
    (by norm_num) (by norm_num) (by norm_num)).1

/-- linspace always yields exactly num samples. -/
theorem linspace_length (a b : ℝ) (n : ℕ) : (linspace a b n).length = n := by
  unfold linspace
  split
  · simp_all
  · split
    · simp_all
    · simp

/-- Closed form of the k-th linspace sample. -/
theorem linspace_getD (a b : ℝ) (n k : ℕ) (hk : k < n) :
    (linspace a b n).getD k 0 =
      if n = 1 then a else a + (k : ℝ) * ((b - a) / ((n : ℝ) - 1)) := by
  unfold linspace
  match n with
  | 0 => omega
  | 1 =>
      have hk0 : k = 0 := by omega
      subst hk0
      rfl
  | Nat.succ (Nat.succ m) =>
      rw [if_neg (by omega), if_neg (by omega), if_neg (by omega)]
      rw [List.getD_eq_getElem?_getD, List.getElem?_map, List.getElem?_range hk]
      rfl

/-- The grid row loop yields lats x lons waypoints. -/
theorem gridRows_length (lons : List ℝ) (a f : ℝ) (i t : ℕ) (lats : List ℝ) :
    (gridRows lons a f i t lats).length = lats.length * lons.length := by
  induction lats generalizing i t with
  | nil => simp [gridRows]
  | cons lat rest ih =>
      simp only [gridRows, List.length_append, List.length_map, List.enum_length,
        List.length_cons, ih]
      by_cases hp : i % 2 = 0
      · rw [if_pos hp]
        ring
      · rw [if_neg hp, List.length_reverse]
        ring

/-- The waypoint emitted by the grid row loop at row k, column j: its
latitude is the k-th latitude, its longitude walks the longitude list
forward on even rows and backward on odd rows, its heading is 90 or 270
accordingly, and its timestamp continues the running counter. -/
theorem gridRows_getElem (lons : List ℝ) (a f : ℝ) :
    ∀ (lats : List ℝ) (i t k j : ℕ), k < lats.length → j < lons.length →
      (gridRows lons a f i t lats)[k * lons.length + j]? =
        some { lat := lats.getD k 0
               lon := if (i + k) % 2 = 0 then lons.getD j 0
                      else lons.getD (lons.length - 1 - j) 0
               altitude_m := a
               heading_deg := if (i + k) % 2 = 0 then (90 : ℝ) else 270
               fov_deg := f
               timestamp := ((t + (k * lons.length + j) : ℕ) : ℝ) } := by
  intro lats
  induction lats with
  | nil =>
      intro i t k j hk hj
      exact absurd hk (Nat.not_lt_zero k)
  | cons lat rest ih =>
      intro i t k j hk hj
      have hlen : (if i % 2 = 0 then lons else lons.reverse).length = lons.length := by
        split
        · rfl
        · exact List.length_reverse lons
      match k with
      | 0 =>
          simp only [gridRows, Nat.zero_mul, Nat.zero_add, Nat.add_zero]
          rw [List.getElem?_append_left
            (by rw [List.length_map, List.enum_length, hlen]; omega)]
          rw [List.getElem?_map, List.getElem?_enum]
          by_cases hp : i % 2 = 0
          · simp only [if_pos hp, List.getD_cons_zero]
            rw [List.getElem?_eq_getElem hj, List.getD_eq_getElem?_getD,
              List.getElem?_eq_getElem hj]
            simp
          · simp only [if_neg hp, List.getD_cons_zero]
            have hj' : lons.length - 1 - j < lons.length := by omega
            rw [List.getElem?_reverse hj, List.getElem?_eq_getElem hj',
              List.getD_eq_getElem?_getD, List.getElem?_eq_getElem hj']
            simp
      | Nat.succ k =>
          have hk' : k < rest.length := by
            simp only [List.length_cons] at hk
            omega
          simp only [gridRows, Nat.succ_eq_add_one]
          rw [List.getElem?_append_right
            (by rw [List.length_map, List.enum_length, hlen]
                calc lons.length ≤ (k + 1) * lons.length :=
                      Nat.le_mul_of_pos_left lons.length (Nat.succ_pos k)
                _ ≤ (k + 1) * lons.length + j := Nat.le_add_right _ j)]
          rw [List.length_map, List.enum_length, hlen,
            show (k + 1) * lons.length + j - lons.length = k * lons.length + j by
              rw [add_one_mul]; omega]
          rw [ih (i + 1) (t + lons.length) k j hk' hj]
          have hpar : (i + 1 + k) % 2 = (i + (k + 1)) % 2 := by
            have h : i + 1 + k = i + (k + 1) := by omega
            rw [h]
          have h2 : t + lons.length + (k * lons.length + j) =
              t + ((k + 1) * lons.length + j) := by
            rw [add_one_mul]
            omega
          rw [hpar, h2, List.getD_cons_succ]

/-- Claim C8: for every bounds and rows, cols >= 1 the grid generator
yields exactly rows * cols waypoints in boustrophedon order: the
waypoint at output index i * cols + j has the i-th of the rows evenly
spaced latitudes (inclusive of both bounds), walks the cols evenly
spaced longitudes ascending with heading 90 on even row indices and
descending with heading 270 on odd row indices, and carries timestamp
i * cols + j, so timestamps run 0, 1, ..., rows * cols - 1 across the
sequence. -/
theorem grid_boustrophedon (min_lat min_lon max_lat max_lon alt fov : ℝ)
    (rows cols : ℕ) (hr : 1 ≤ rows) (hc : 1 ≤ cols) :
    (FlightPath.grid min_lat min_lon max_lat max_lon rows cols alt
        fov).waypoints.length = rows * cols ∧
    (∀ i j, i < rows → j < cols →
      (FlightPath.grid min_lat min_lon max_lat max_lon rows cols alt
          fov).waypoints.getD (i * cols + j) default =
        { lat := if rows = 1 then min_lat
                 else min_lat + (i : ℝ) * ((max_lat - min_lat) / ((rows : ℝ) - 1))
          lon := if i % 2 = 0 then
                   (if cols = 1 then min_lon
                    else min_lon + (j : ℝ) * ((max_lon - min_lon) / ((cols : ℝ) - 1)))
                 else
                   (if cols = 1 then min_lon
                    else min_lon + ((cols - 1 - j : ℕ) : ℝ) *
                      ((max_lon - min_lon) / ((cols : ℝ) - 1)))
          altitude_m := alt
          heading_deg := if i % 2 = 0 then (90 : ℝ) else 270
          fov_deg := fov
          timestamp := ((i * cols + j : ℕ) : ℝ) }) := by
  constructor
  · show (gridRows (linspace min_lon max_lon cols) alt fov 0 0
        (linspace min_lat max_lat rows)).length = rows * cols
    rw [gridRows_length, linspace_length, linspace_length]
  · intro i j hi hj
    show (gridRows (linspace min_lon max_lon cols) alt fov 0 0
        (linspace min_lat max_lat rows)).getD (i * cols + j) default = _
    rw [List.getD_eq_getElem?_getD]
    rw [show i * cols + j = i * (linspace min_lon max_lon cols).length + j by
      rw [linspace_length]]
    rw [gridRows_getElem (linspace min_lon max_lon cols) alt fov
      (linspace min_lat max_lat rows) 0 0 i j
      (by rw [linspace_length]; exact hi) (by rw [linspace_length]; exact hj)]
    simp only [Option.getD_some, Nat.zero_add, linspace_length]
    rw [linspace_getD min_lat max_lat rows i hi]
    by_cases hp : i % 2 = 0
    · simp only [if_pos hp]
      rw [linspace_getD min_lon max_lon cols j hj]
    · simp only [if_neg hp]
      rw [linspace_getD min_lon max_lon cols (cols - 1 - j) (by omega)]

/-- Claim C8 witness: the 3 x 3 grid over the unit square has 9
waypoints and its waypoint at index 1 * 3 + 0 (row 1, first visited
column) flies the reversed longitude row at heading 270. -/
theorem grid_boustrophedon_witness :
    (FlightPath.grid 0 0 1 1 3 3 100 60).waypoints.length = 9 ∧
    (FlightPath.grid 0 0 1 1 3 3 100 60).waypoints.getD 3 default =
      { lat := 1 / 2
        lon := 1
        altitude_m := 100
        heading_deg := 270
        fov_deg := 60
        speed_ms := 0
        timestamp := 3 } := by
  have h := grid_boustrophedon 0 0 1 1 100 60 3 3 (by norm_num) (by norm_num)
  refine ⟨by rw [h.1], ?_⟩
  have h2 := h.2 1 0 (by norm_num) (by norm_num)
  norm_num at h2
  simpa using h2

end GeoSlice
